import Mathlib

/-!
Verification of the Carcino term-finder lookup pipeline (src/main.py).

The development shallowly embeds the backend of the application:

* `get_medlineplus_definition` (main.py lines 10-63): the primary
  MedlinePlus client, modelled as a total function over an outcome type
  `MedlineOutcome` that enumerates the ways the HTTP/XML interaction can
  end (request exception, XML parse error, any other exception, or a
  parsed document).  A parsed document is abstracted to the list of its
  `content` elements in document order, each carrying its `name`
  attribute and optional text, which is what the code inspects via
  `root.find(".//content[@name=FullSummary]")`.
* The HTML cleaning step (lines 41-49): BeautifulSoup parsing of a
  well-formed fragment is modelled by a small tokenizer and stack-based
  tree builder; `li.insert(0, ...)` becomes `insertBulletsList`, and
  `soup.get_text(separator=" ", strip=True)` becomes `get_text`, which
  strips every text node, drops the ones that become empty, and joins
  the rest with a single space.  Entities are not modelled, so theorems
  about markup-free text also assume the absence of `&`.
* `get_wikipedia_definition` (lines 66-78): the fallback Wikipedia
  client over the outcome type `WikiOutcome` (summary, PageError,
  DisambiguationError with its candidate list, other exception).
* `perform_search` (lines 140-150): the resolver; the primary result is
  `none` exactly when MedlinePlus had no entry, and only then is the
  fallback consulted.
* `search_event` (lines 116-138): the input gate; the code only checks
  `if not term` (empty string) and passes the raw text on untrimmed.
-/

namespace Carcino

/-- Python str.strip() whitespace test restricted to the ASCII whitespace
characters Python strips: space, tab, newline, carriage return, vertical
tab, form feed. -/
def isStripChar (c : Char) : Bool :=
  c == ' ' || c == '\t' || c == '\n' || c == '\r' || c == '\x0b' || c == '\x0c'

/-- Model of Python str.strip() on the character list. -/
def stripChars (l : List Char) : List Char :=
  ((l.dropWhile isStripChar).reverse.dropWhile isStripChar).reverse

/-- Model of Python str.strip(): remove leading and trailing whitespace. -/
def pyStrip (s : String) : String :=
  String.mk (stripChars s.data)

/-- Model of Python str.join: join a list of strings with a separator. -/
def joinSep (sep : String) : List String → String
  | [] => ""
  | [s] => s
  | s :: rest => s ++ sep ++ joinSep sep rest

/-- Tokens of the HTML fragment: an opening tag, a closing tag, or a text
run. -/
inductive Tok where
  | tOpen (tag : String)
  | tClose (tag : String)
  | tText (s : String)

/-- Classify the contents of an angle-bracket pair as an opening or a
closing tag. -/
def mkTagTok (s : String) : Tok :=
  match s.data with
  | '/' :: rest => Tok.tClose (String.mk rest)
  | _ => Tok.tOpen s

/-- Tokenizer for HTML fragments: scans the characters, accumulating the
current run in reverse; the Bool records whether we are inside a tag. -/
def tokChars : List Char → Bool → List Char → List Tok
  | [], true, _ => []
  | [], false, cur =>
      if cur = [] then [] else [Tok.tText (String.mk cur.reverse)]
  | c :: cs, false, cur =>
      if c = '<' then
        (if cur = [] then [] else [Tok.tText (String.mk cur.reverse)])
          ++ tokChars cs true []
      else
        tokChars cs false (c :: cur)
  | c :: cs, true, cur =>
      if c = '>' then
        mkTagTok (String.mk cur.reverse) :: tokChars cs false []
      else
        tokChars cs true (c :: cur)

/-- Tokenize an HTML fragment string. -/
def tokenize (s : String) : List Tok :=
  tokChars s.data false []

/-- Parsed HTML node: a text node or an element with children, as
BeautifulSoup produces for a well-formed fragment. -/
inductive Node where
  | text (s : String)
  | elem (tag : String) (children : List Node)

/-- Close every frame still open on the builder stack. -/
def closeAll : List (String × List Node) → List Node → List Node
  | [], acc => acc.reverse
  | (t, siblings) :: rest, acc => closeAll rest (Node.elem t acc.reverse :: siblings)

/-- Stack-based tree builder over the token list.  The stack holds, for
each open element, its tag and the (reversed) siblings accumulated before
it opened; `acc` holds the (reversed) children of the innermost open
element. -/
def buildAux : List Tok → List (String × List Node) → List Node → List Node
  | [], stack, acc => closeAll stack acc
  | Tok.tText s :: ts, stack, acc => buildAux ts stack (Node.text s :: acc)
  | Tok.tOpen t :: ts, stack, acc => buildAux ts ((t, acc) :: stack) []
  | Tok.tClose t :: ts, stack, acc =>
      match stack with
      | [] => buildAux ts [] acc
      | (t0, siblings) :: rest =>
          if t0 = t then buildAux ts rest (Node.elem t0 acc.reverse :: siblings)
          else buildAux ts ((t0, siblings) :: rest) acc
termination_by structural toks _ _ => toks

/-- Parse an HTML fragment into its top-level nodes. -/
def parseHtml (s : String) : List Node :=
  buildAux (tokenize s) [] []

/-- The exact string literal the source inserts before each list item
(main.py line 45): a newline followed by the three characters that the
source file stores for the bullet point (the UTF-8 bytes of the bullet
sign read back as separate characters) and a space. -/
def li_marker : String := "\nâ€¢ "

mutual

/-- Model of the `for li in soup.find_all("li"): li.insert(0, ...)` loop
(main.py lines 44-45): prepend the marker text node to the children of
every `li` element, everywhere in the tree. -/
def insertBulletsNode : Node → Node
  | Node.text s => Node.text s
  | Node.elem t cs =>
      if t = "li" then Node.elem t (Node.text li_marker :: insertBulletsList cs)
      else Node.elem t (insertBulletsList cs)
termination_by structural n => n

/-- `insertBulletsNode` mapped over a list of nodes. -/
def insertBulletsList : List Node → List Node
  | [] => []
  | n :: ns => insertBulletsNode n :: insertBulletsList ns
termination_by structural ns => ns

end

mutual

/-- All text-node strings below a node, in document order. -/
def nodeTexts : Node → List String
  | Node.text s => [s]
  | Node.elem _ cs => listTexts cs
termination_by structural n => n

/-- All text-node strings below a list of nodes, in document order. -/
def listTexts : List Node → List String
  | [] => []
  | n :: ns => nodeTexts n ++ listTexts ns
termination_by structural ns => ns

end

/-- Model of `soup.get_text(separator=" ", strip=True)` (main.py line 49):
strip every text node, drop those that become empty, join the rest with a
single space. -/
def get_text (nodes : List Node) : String :=
  joinSep " " (((listTexts nodes).map pyStrip).filter (fun s => s != ""))

/-- The HTML cleaning step of the primary client (main.py lines 41-49):
parse the fragment, prefix every list item with the bullet marker, then
flatten to stripped, space-joined text. -/
def clean_html (raw : String) : String :=
  get_text (insertBulletsList (parseHtml raw))

/-- A `content` element of the MedlinePlus XML response: its `name`
attribute and its text (ElementTree yields `None` for an empty element). -/
structure ContentNode where
  name : String
  text : Option String

/-- The ways the MedlinePlus interaction can end, matching the `try`
branches of main.py lines 27-63: a `requests.exceptions.RequestException`
(connection error, timeout, or the non-2xx raised by `raise_for_status`),
an `ET.ParseError` from `ET.fromstring`, any other exception with its
description, or a parsed document given by its `content` elements in
document order. -/
inductive MedlineOutcome where
  | requestException
  | xmlParseError
  | otherException (desc : String)
  | response (contents : List ContentNode)

/-- Embedding of `get_medlineplus_definition` (main.py lines 10-63).
Returns `none` exactly where the Python function returns `None` (no
FullSummary content, or its text missing or empty); every caught
exception becomes the corresponding message string. -/
def get_medlineplus_definition (outcome : MedlineOutcome) : Option String :=
  match outcome with
  | MedlineOutcome.requestException =>
      some "MedlinePlus service is currently unavailable. Please check your internet connection."
  | MedlineOutcome.xmlParseError =>
      some "Failed to parse the response from MedlinePlus."
  | MedlineOutcome.otherException desc =>
      some ("An unexpected error occurred with the MedlinePlus service: " ++ desc)
  | MedlineOutcome.response contents =>
      match contents.find? (fun node => node.name == "FullSummary") with
      | none => none
      | some node =>
          match node.text with
          | none => none
          | some t =>
              if t = "" then none
              else
                some ("Source: MedlinePlus (U.S. National Library of Medicine)\n\n"
                  ++ clean_html (pyStrip t))

/-- The ways the Wikipedia interaction can end, matching the `try`
branches of main.py lines 66-78: a summary, a `PageError`, a
`DisambiguationError` carrying its candidate titles (`e.options`), or any
other exception with its description. -/
inductive WikiOutcome where
  | summaryOk (summary : String)
  | pageError
  | disambiguationError (options : List String)
  | otherException (desc : String)

/-- Embedding of `get_wikipedia_definition` (main.py lines 66-78). -/
def get_wikipedia_definition (term : String) (outcome : WikiOutcome) : String :=
  match outcome with
  | WikiOutcome.summaryOk summary => "Source: Wikipedia\n\n" ++ summary
  | WikiOutcome.pageError =>
      "Sorry, the term '" ++ term ++ "' could not be found in MedlinePlus or Wikipedia."
  | WikiOutcome.disambiguationError options =>
      "The term '" ++ term
        ++ "' is ambiguous on Wikipedia. Please be more specific. Some options might be: "
        ++ joinSep ", " (options.take 4) ++ "..."
  | WikiOutcome.otherException desc =>
      "An error occurred while fetching from Wikipedia: " ++ desc

/-- Embedding of `perform_search` (main.py lines 140-150): try MedlinePlus
first; only when it returns `None` fall back to Wikipedia. -/
def perform_search (term : String) (primary : MedlineOutcome) (fallback : WikiOutcome) : String :=
  match get_medlineplus_definition primary with
  | some found => found
  | none => get_wikipedia_definition term fallback

/-- Embedding of the input gate of `search_event` (main.py lines 116-138):
the code checks only `if not term` — the exact empty string — shows a
feedback message and performs no search in that case, and otherwise hands
the raw text to `perform_search` unchanged.  `none` means no lookup was
started. -/
def search_event (raw : String) (primary : MedlineOutcome) (fallback : WikiOutcome) :
    Option String :=
  if raw = "" then none
  else some (perform_search raw primary fallback)

/-- C1: the resolver calls the primary client first; a primary `Found`
or `ServiceError` (any `some` result of `get_medlineplus_definition`) is
final and the fallback result is irrelevant; the fallback is consulted
exactly when the primary returns `none` (NotFound), and its result is
returned verbatim, so a primary-source error is never masked by the
fallback. -/
theorem C1_resolver_fallback_policy (term : String) (primary : MedlineOutcome)
    (fallback : WikiOutcome) :
    (∀ found, get_medlineplus_definition primary = some found →
       perform_search term primary fallback = found) ∧
    (get_medlineplus_definition primary = none →
       perform_search term primary fallback = get_wikipedia_definition term fallback) ∧
    (get_medlineplus_definition primary ≠ none →
       ∀ fb2, perform_search term primary fallback = perform_search term primary fb2) := by
  refine ⟨fun found hf => ?_, fun hn => ?_, fun hs fb2 => ?_⟩
  · simp [perform_search, hf]
  · simp [perform_search, hn]
  · cases hp : get_medlineplus_definition primary with
    | none => exact absurd hp hs
    | some found => simp [perform_search, hp]

/-- Witness for C1 at concrete inputs: a primary service error is the
final answer, and an empty response (NotFound) hands over to the
fallback verbatim. -/
theorem C1_resolver_fallback_policy_witness :
    perform_search "flu" MedlineOutcome.requestException WikiOutcome.pageError =
      "MedlinePlus service is currently unavailable. Please check your internet connection." ∧
    perform_search "flu" (MedlineOutcome.response []) WikiOutcome.pageError =
      get_wikipedia_definition "flu" WikiOutcome.pageError :=
  ⟨(C1_resolver_fallback_policy "flu" MedlineOutcome.requestException WikiOutcome.pageError).1
      _ rfl,
   (C1_resolver_fallback_policy "flu" (MedlineOutcome.response []) WikiOutcome.pageError).2.1
      rfl⟩

/-- C2 counterexample: the claim says whitespace-only input fails with
`EmptyInputError` before any lookup, and that non-empty input is trimmed
before being passed downstream.  The code only tests `if not term`, so a
single space is searched for as-is, and `"flu "` is passed untrimmed. -/
theorem C2_counterexample :
    pyStrip " " = "" ∧
    search_event " " MedlineOutcome.requestException WikiOutcome.pageError ≠ none ∧
    search_event "flu " MedlineOutcome.requestException WikiOutcome.pageError =
      some (perform_search "flu " MedlineOutcome.requestException WikiOutcome.pageError) := by
  refine ⟨by decide, by decide, by decide⟩

/-- C2 amended: only the exact empty string is rejected (with a feedback
message and no lookup); every non-empty raw input — including
whitespace-only input — is passed downstream verbatim, with no trimming
or any other transformation. -/
theorem C2_amended_gate (raw : String) (primary : MedlineOutcome) (fallback : WikiOutcome) :
    (raw = "" → search_event raw primary fallback = none) ∧
    (raw ≠ "" → search_event raw primary fallback =
       some (perform_search raw primary fallback)) := by
  refine ⟨fun h => ?_, fun h => ?_⟩ <;> simp [search_event, h]

/-- Witness for the amended C2: the empty string is rejected, and a
padded term is searched verbatim. -/
theorem C2_amended_gate_witness :
    search_event "" MedlineOutcome.requestException WikiOutcome.pageError = none ∧
    search_event " flu " MedlineOutcome.requestException WikiOutcome.pageError =
      some (perform_search " flu " MedlineOutcome.requestException WikiOutcome.pageError) :=
  ⟨(C2_amended_gate "" MedlineOutcome.requestException WikiOutcome.pageError).1 rfl,
   (C2_amended_gate " flu " MedlineOutcome.requestException WikiOutcome.pageError).2
      (by decide)⟩

/-- C3: the primary client is a total function into `Option String`
(nothing escapes its boundary); a transport failure yields the
service-unavailable message naming MedlinePlus, a malformed XML response
yields the parse-failure message, and any other failure is wrapped with
its description. -/
theorem C3_primary_never_raises :
    get_medlineplus_definition MedlineOutcome.requestException =
      some ("MedlinePlus" ++ " service is currently " ++ "unavailable"
        ++ ". Please check your internet connection.") ∧
    get_medlineplus_definition MedlineOutcome.xmlParseError =
      some ("Failed to parse the response from " ++ "MedlinePlus" ++ ".") ∧
    (∀ desc, get_medlineplus_definition (MedlineOutcome.otherException desc) =
      some ("An unexpected error occurred with the MedlinePlus service: " ++ desc)) := by
  refine ⟨by decide, by decide, fun desc => rfl⟩

/-- C4: for a parsed response, the primary client returns `none`
(NotFound, the fallback trigger) when no content element carries the
`FullSummary` name or when the first such element's text is missing or
empty; otherwise it returns the definition built from that first
element's value. -/
theorem C4_fullsummary_presence (contents : List ContentNode) :
    (contents.find? (fun node => node.name == "FullSummary") = none →
       get_medlineplus_definition (MedlineOutcome.response contents) = none) ∧
    (∀ node, contents.find? (fun n2 => n2.name == "FullSummary") = some node →
       ((node.text = none ∨ node.text = some "") →
          get_medlineplus_definition (MedlineOutcome.response contents) = none) ∧
       (∀ t, node.text = some t → t ≠ "" →
          get_medlineplus_definition (MedlineOutcome.response contents) =
            some ("Source: MedlinePlus (U.S. National Library of Medicine)\n\n"
              ++ clean_html (pyStrip t)))) := by
  refine ⟨fun h => ?_, fun node hfind => ⟨fun ht => ?_, fun t ht hne => ?_⟩⟩
  · simp [get_medlineplus_definition, h]
  · rcases ht with ht | ht <;> simp [get_medlineplus_definition, hfind, ht]
  · simp [get_medlineplus_definition, hfind, ht, hne]

/-- Witness for C4: an empty document, a present-but-empty summary, and
a present non-empty summary, each at a concrete response. -/
theorem C4_fullsummary_presence_witness :
    get_medlineplus_definition (MedlineOutcome.response []) = none ∧
    get_medlineplus_definition
        (MedlineOutcome.response [⟨"FullSummary", some ""⟩]) = none ∧
    get_medlineplus_definition
        (MedlineOutcome.response [⟨"FullSummary", some "flu info"⟩]) =
      some ("Source: MedlinePlus (U.S. National Library of Medicine)\n\n"
        ++ clean_html (pyStrip "flu info")) :=
  ⟨(C4_fullsummary_presence []).1 rfl,
   ((C4_fullsummary_presence [⟨"FullSummary", some ""⟩]).2
      ⟨"FullSummary", some ""⟩ rfl).1 (Or.inr rfl),
   ((C4_fullsummary_presence [⟨"FullSummary", some "flu info"⟩]).2
      ⟨"FullSummary", some "flu info"⟩ rfl).2 "flu info" rfl (by decide)⟩

/-- C5 counterexample: the claim says the not-found message is exactly
`'xyzzy123' could not be found in either source`; the code produces
`Sorry, the term 'xyzzy123' could not be found in MedlinePlus or
Wikipedia.` instead. -/
theorem C5_counterexample :
    get_wikipedia_definition "xyzzy123" WikiOutcome.pageError ≠
      "'xyzzy123' could not be found in either source" ∧
    perform_search "xyzzy123" (MedlineOutcome.response []) WikiOutcome.pageError ≠
      "'xyzzy123' could not be found in either source" := by
  refine ⟨by decide, by decide⟩

/-- C5 amended: when the fallback reports no page, its message is
`Sorry, the term '<term>' could not be found in MedlinePlus or
Wikipedia.` with the term interpolated, and after a primary NotFound the
resolver's final result carries exactly that message. -/
theorem C5_not_found_message (term : String) (primary : MedlineOutcome)
    (h : get_medlineplus_definition primary = none) :
    get_wikipedia_definition term WikiOutcome.pageError =
      "Sorry, the term '" ++ term ++ "' could not be found in MedlinePlus or Wikipedia." ∧
    perform_search term primary WikiOutcome.pageError =
      "Sorry, the term '" ++ term ++ "' could not be found in MedlinePlus or Wikipedia." := by
  refine ⟨rfl, ?_⟩
  simp [perform_search, h, get_wikipedia_definition]

/-- Witness for the amended C5 at the spec's end-to-end example term. -/
theorem C5_not_found_message_witness :
    perform_search "xyzzy123" (MedlineOutcome.response []) WikiOutcome.pageError =
      "Sorry, the term 'xyzzy123' could not be found in MedlinePlus or Wikipedia." :=
  (C5_not_found_message "xyzzy123" (MedlineOutcome.response []) rfl).2

/-- C6: for an ambiguous term with more than four candidates, the
message renders exactly the first four titles in order, comma-joined,
followed by an ellipsis, and does not depend on the candidates from the
fifth onward. -/
theorem C6_disambiguation_message (term : String) (options : List String)
    (h : 4 < options.length) :
    get_wikipedia_definition term (WikiOutcome.disambiguationError options) =
      "The term '" ++ term
        ++ "' is ambiguous on Wikipedia. Please be more specific. Some options might be: "
        ++ joinSep ", " (options.take 4) ++ "..." ∧
    get_wikipedia_definition term (WikiOutcome.disambiguationError options) =
      get_wikipedia_definition term (WikiOutcome.disambiguationError (options.take 4)) := by
  refine ⟨rfl, ?_⟩
  simp [get_wikipedia_definition, List.take_take]

/-- Witness for C6 with six candidate titles, per the spec's example. -/
theorem C6_disambiguation_message_witness :
    4 < (["X1", "X2", "X3", "X4", "X5", "X6"] : List String).length ∧
    get_wikipedia_definition "virus"
        (WikiOutcome.disambiguationError ["X1", "X2", "X3", "X4", "X5", "X6"]) =
      "The term 'virus' is ambiguous on Wikipedia. Please be more specific. Some options might be: X1, X2, X3, X4..." := by
  refine ⟨by decide, ?_⟩
  rw [(C6_disambiguation_message "virus" ["X1", "X2", "X3", "X4", "X5", "X6"] (by decide)).1]
  decide

/-- C7: the cleaning step prefixes every list-item element with the
newline-plus-bullet-marker text node before markup is stripped (the
marker being the exact literal the source file stores at line 45), so
the fragment `<ul><li>A</li><li>B</li></ul>` flattens to one
bullet-marked entry per item with A before B. -/
theorem C7_list_item_bullets :
    (∀ children, insertBulletsNode (Node.elem "li" children) =
       Node.elem "li" (Node.text li_marker :: insertBulletsList children)) ∧
    li_marker = "\n" ++ "â€¢ " ∧
    clean_html "<ul><li>A</li><li>B</li></ul>" = "â€¢ A â€¢ B" := by
  refine ⟨fun children => ?_, by decide, by decide⟩
  simp [insertBulletsNode]

/-- C8: end-to-end at the spec's example — for term `diabetes`, a
response whose FullSummary field is `<p>High blood sugar</p>` resolves,
for every fallback behaviour, to the attributed text
`Source: MedlinePlus (U.S. National Library of Medicine)` followed by a
blank line and `High blood sugar`. -/
theorem C8_diabetes_end_to_end (fallback : WikiOutcome) :
    perform_search "diabetes"
        (MedlineOutcome.response [⟨"FullSummary", some "<p>High blood sugar</p>"⟩])
        fallback =
      "Source: MedlinePlus (U.S. National Library of Medicine)\n\nHigh blood sugar" := by
  have h : get_medlineplus_definition
      (MedlineOutcome.response [⟨"FullSummary", some "<p>High blood sugar</p>"⟩]) =
      some "Source: MedlinePlus (U.S. National Library of Medicine)\n\nHigh blood sugar" := by
    decide
  simp [perform_search, h]

/-- Tokenizing a character run that contains no `<` never discovers a
tag: it yields a single text token carrying the accumulator followed by
the run, or nothing when both are empty. -/
theorem tokChars_of_no_tag (l : List Char) :
    ∀ cur : List Char, (∀ c ∈ l, c ≠ '<') →
      tokChars l false cur =
        if cur.reverse ++ l = [] then []
        else [Tok.tText (String.mk (cur.reverse ++ l))] := by
  induction l with
  | nil =>
      intro cur _
      simp [tokChars]
  | cons c cs ih =>
      intro cur h
      have hc : c ≠ '<' := h c (List.mem_cons_self c cs)
      have hcs : ∀ x ∈ cs, x ≠ '<' := fun x hx => h x (List.mem_cons_of_mem c hx)
      have hrev : (c :: cur).reverse ++ cs = cur.reverse ++ (c :: cs) := by simp
      simp only [tokChars, if_neg hc]
      rw [ih (c :: cur) hcs, hrev]

/-- C9: the HTML flattening step is the identity on already-clean plain
text — any string with no markup characters (`<`, and `&`, since the
model does not interpret entities) that is already stripped comes back
unchanged from parse, bulleting, text extraction and joining. -/
theorem C9_clean_text_round_trip (s : String)
    (hmarkup : ∀ c ∈ s.data, c ≠ '<' ∧ c ≠ '&')
    (htrim : pyStrip s = s) :
    clean_html s = s := by
  obtain ⟨l⟩ := s
  have hl : ∀ c ∈ l, c ≠ '<' := fun c hc => (hmarkup c hc).1
  by_cases hnil : l = []
  · subst hnil
    decide
  · have htok : tokenize (String.mk l) = [Tok.tText (String.mk l)] := by
      unfold tokenize
      rw [tokChars_of_no_tag l [] hl]
      simp [hnil]
    unfold clean_html parseHtml
    rw [htok]
    have hbuild : buildAux [Tok.tText (String.mk l)] [] [] = [Node.text (String.mk l)] := rfl
    rw [hbuild]
    have hins : insertBulletsList [Node.text (String.mk l)] = [Node.text (String.mk l)] := rfl
    rw [hins]
    unfold get_text
    have htexts : listTexts [Node.text (String.mk l)] = [String.mk l] := rfl
    rw [htexts]
    have hmap : [String.mk l].map pyStrip = [String.mk l] := by
      simp only [List.map]
      rw [htrim]
    rw [hmap]
    have hne : (String.mk l != "") = true := by
      have hne2 : String.mk l ≠ "" := fun h => hnil (congrArg String.data h)
      simpa using hne2
    have hfil : List.filter (fun s => s != "") [String.mk l] = [String.mk l] := by
      simp [hne]
    rw [hfil]
    rfl

/-- Witness for C9 on a concrete clean string. -/
theorem C9_clean_text_round_trip_witness :
    clean_html "High blood sugar" = "High blood sugar" :=
  C9_clean_text_round_trip "High blood sugar" (by decide) (by decide)

/-- C10: a successful fallback lookup never returns the bare summary;
the rendered text is the literal prefix `Source: Wikipedia` followed by
a blank line and then the summary. -/
theorem C10_wikipedia_attribution_prefix (term summary : String) :
    get_wikipedia_definition term (WikiOutcome.summaryOk summary) =
      "Source: Wikipedia\n\n" ++ summary ∧
    get_wikipedia_definition term (WikiOutcome.summaryOk summary) ≠ summary := by
  refine ⟨rfl, fun h => ?_⟩
  have hlen : ("Source: Wikipedia\n\n" ++ summary).length = summary.length := by
    have h2 : get_wikipedia_definition term (WikiOutcome.summaryOk summary) =
        "Source: Wikipedia\n\n" ++ summary := rfl
    rw [h2] at h
    exact congrArg String.length h
  rw [String.length_append] at hlen
  have h19 : ("Source: Wikipedia\n\n" : String).length = 19 := by decide
  omega

end Carcino
